import Mathlib

/-!
Shallow embedding of the MIDI-Hub firmware (`src/MidiHub.c`, revision H6) in
Lean 4, together with theorems settling the frozen claims about it.

Modelling conventions:
* C `unsigned long` (32-bit) arithmetic is modelled on `Nat` with explicit
  `% 4294967296` where the firmware can wrap; `unsigned int` (16-bit) with
  explicit bounds reasoning; `byte` values are `Nat` kept below 256 by the
  operations themselves.
* The receive queue indices `rxHead`/`rxTail` are bytes that the firmware
  keeps in `[0,20)`; they are modelled as `Fin 20` (the code's
  `if(next >= SZ_RXBUFFER) next -= SZ_RXBUFFER` is exactly `Fin` wraparound).
* Hardware registers (ports, UART, timer registers) are outside the state;
  writing a byte to the UART is modelled as appending it to an output list.
* The EEPROM is modelled as a function `Nat → Nat` holding bytes.
-/

/-- MIDI beat clock messages (`MIDI_SYNCH_TICK` in the source). -/
def MIDI_SYNCH_TICK : Nat := 0xf8

/-- `MIDI_SYNCH_START` in the source. -/
def MIDI_SYNCH_START : Nat := 0xfa

/-- `MIDI_SYNCH_CONTINUE` in the source. -/
def MIDI_SYNCH_CONTINUE : Nat := 0xfb

/-- `MIDI_SYNCH_STOP` in the source. -/
def MIDI_SYNCH_STOP : Nat := 0xfc

/-- Button masks from the source. -/
def M_BUTTON_RUN : Nat := 0x01

/-- `M_BUTTON_INC` in the source. -/
def M_BUTTON_INC : Nat := 0x02

/-- `M_BUTTON_DEC` in the source. -/
def M_BUTTON_DEC : Nat := 0x04

/-- `M_LONG_PRESS` in the source. -/
def M_LONG_PRESS : Nat := 0x40

/-- `M_AUTO_REPEAT` in the source. -/
def M_AUTO_REPEAT : Nat := 0x80

/-- `AUTO_REPEAT_INTERVAL` (ms). -/
def AUTO_REPEAT_INTERVAL : Nat := 80

/-- `AUTO_REPEAT_DELAY` (ms). -/
def AUTO_REPEAT_DELAY : Nat := 500

/-- `DEBOUNCE_PERIOD` (ms). -/
def DEBOUNCE_PERIOD : Nat := 100

/-- `FADE_PERIOD` (ms). -/
def FADE_PERIOD : Nat := 30

/-- `PWM_DIM`. -/
def PWM_DIM : Nat := 5

/-- `PWM_MAX`. -/
def PWM_MAX : Nat := 50

/-- `INITIAL_DUTY`. -/
def INITIAL_DUTY : Nat := 10

/-- `BPM_MIN`. -/
def BPM_MIN : Int := 30

/-- `BPM_MAX`. -/
def BPM_MAX : Int := 300

/-- `BPM_DEFAULT`. -/
def BPM_DEFAULT : Int := 120

/-- `EEPROM_ADDR_MAGIC_COOKIE`. -/
def EEPROM_ADDR_MAGIC_COOKIE : Nat := 9

/-- `EEPROM_ADDR_OPTIONS`. -/
def EEPROM_ADDR_OPTIONS : Nat := 10

/-- `EEPROM_MAGIC_COOKIE`. -/
def EEPROM_MAGIC_COOKIE : Nat := 0xA5

/-- `MENU_SIZE`. -/
def MENU_SIZE : Nat := 6

/-- `SZ_RXBUFFER`: capacity of the receive circular buffer. -/
def SZ_RXBUFFER : Nat := 20

/-- `NUM_BRIGHTNESS_LEVELS`. -/
def NUM_BRIGHTNESS_LEVELS : Nat := 6

/-- Configuration option bits (the anonymous `enum` in the source). -/
def OPTION_PASSREALTIMEMSG : Nat := 0x01

/-- `OPTION_PASSOTHERMSG`. -/
def OPTION_PASSOTHERMSG : Nat := 0x02

/-- `OPTION_STARTSTOP`. -/
def OPTION_STARTSTOP : Nat := 0x04

/-- `OPTION_THRUANIMATE`. -/
def OPTION_THRUANIMATE : Nat := 0x08

/-- `OPTION_DISCREET`. -/
def OPTION_DISCREET : Nat := 0x10

/-- `OPTIONS_DEFAULT = OPTION_PASSOTHERMSG|OPTION_STARTSTOP|OPTION_THRUANIMATE`. -/
def OPTIONS_DEFAULT : Nat := OPTION_PASSOTHERMSG ||| OPTION_STARTSTOP ||| OPTION_THRUANIMATE

/-- `TIMER_COUNTS_PER_SECOND` from `setBPM`. -/
def TIMER_COUNTS_PER_SECOND : Nat := 500000

/-- Operating modes (the `enum` assigned to `_mode`). -/
inductive Mode where
  | MODE_STEP
  | MODE_TAP
  | MODE_NOCLOCK
  | MODE_MENU
deriving DecidableEq

open Mode

/-- The `brightnessLevels` table initialised at the top of `main`. -/
def brightnessLevels : Nat → Nat
  | 0 => 50
  | 1 => 20
  | 2 => 10
  | 3 => 5
  | 4 => 2
  | _ => 1

/-- 2^32, the wrap modulus of the C `unsigned long` counters. -/
def U32 : Nat := 4294967296

/-- Unsigned 32-bit subtraction `a - b` as the firmware's `unsigned long`
arithmetic computes it (operands assumed already reduced below `U32`). -/
def usub32 (a b : Nat) : Nat := (a + U32 - b) % U32

/-- Conversion of a C `unsigned long` value to a (16-bit) `int` parameter, as
happens at the call `setBPM(60000UL / period)`. -/
def toInt16 (n : Nat) : Int :=
  let r : Int := (n : Int) % 65536
  if 32768 ≤ r then r - 65536 else r

/-- The firmware state owned by the main loop plus the ISR-shared fields
(`tick_flag`, `systemTicks`, the receive queue) and the EEPROM contents. -/
structure HubState where
  rxBuffer : Fin 20 → Nat
  rxHead : Fin 20
  rxTail : Fin 20
  options : Nat
  mode : Mode
  brightness : Nat
  maxDuty : Nat
  duty : Fin 6 → Nat
  bpm : Int
  timer_init_scalar : Nat
  tick_flag : Bool
  systemTicks : Nat
  running : Bool
  tickCount : Nat
  runLock : Bool
  midiRestart : Bool
  tapCount : Nat
  firstTapSystemTicks : Nat
  lastTapSystemTicks : Nat
  menuOption : Nat
  menuLoopCount : Nat
  nextFade : Nat
  eeprom : Nat → Nat

/-- `setBPM` (lines 337-357): clamp the argument to `[BPM_MIN,BPM_MAX]`,
store it in `_bpm` and recompute `timer_init_scalar`:
`x = (60*500000)/24 = 1250000; x = x/_bpm; timer_init_scalar = 65535 - x`.
The divisions are C `unsigned long` divisions; since the clamped bpm is in
`[30,300]`, `x ∈ [4166,41666]` and `65535 - x` neither underflows nor is
truncated by the 16-bit store. -/
def setBPM (b : Int) (s : HubState) : HubState :=
  let b := if b < BPM_MIN then BPM_MIN else if b > BPM_MAX then BPM_MAX else b
  let x := (60 * TIMER_COUNTS_PER_SECOND) / 24
  let x := x / b.toNat
  { s with bpm := b, timer_init_scalar := 65535 - x }

/-- Clamp to `[30,300]` written the way the spec words it (for refinement). -/
def clampSpec (b : Int) : Int := max 30 (min 300 b)

/-- Round-half-up rational division `round (p / q)`, the `round` used by the
claimed reload formula. -/
def roundDiv (p q : Nat) : Nat := (2 * p + q) / (2 * q)

/-- The reload formula exactly as the claim states it:
`MAX_TIMER_VALUE + 1 - round(60 * COUNTS_PER_SECOND / 24 / bpm)`
with `MAX_TIMER_VALUE = 65535` and `COUNTS_PER_SECOND = 500000`. -/
def specReloadClaimed (bpm : Nat) : Nat := 65536 - roundDiv 1250000 bpm

/-- The amended reload formula that the code actually implements:
`MAX_TIMER_VALUE - floor(60 * COUNTS_PER_SECOND / 24 / bpm)` (truncating
division, and `65535` rather than `65536`). -/
def specReloadAmended (bpm : Nat) : Nat := 65535 - 1250000 / bpm

/-- `saveOptions` writes a byte to the EEPROM model. -/
def eeprom_write (addr v : Nat) (e : Nat → Nat) : Nat → Nat :=
  Function.update e addr (v % 256)

/-- `saveOptions` (lines 216-220): write the options byte, then the magic
cookie. -/
def saveOptions (s : HubState) : HubState :=
  let e1 := eeprom_write EEPROM_ADDR_OPTIONS s.options s.eeprom
  let e2 := eeprom_write EEPROM_ADDR_MAGIC_COOKIE EEPROM_MAGIC_COOKIE e1
  { s with eeprom := e2 }

/-- `loadOptions` (lines 224-232): read the options byte; if the cookie byte
does not match `EEPROM_MAGIC_COOKIE`, replace it with `OPTIONS_DEFAULT`. -/
def loadOptions (s : HubState) : HubState :=
  let o := s.eeprom EEPROM_ADDR_OPTIONS
  let o' := if s.eeprom EEPROM_ADDR_MAGIC_COOKIE ≠ EEPROM_MAGIC_COOKIE then OPTIONS_DEFAULT else o
  { s with options := o' }

/-- Number of bytes currently queued: distance from `rxTail` up to `rxHead`
around the circular buffer. -/
def qsize (s : HubState) : Nat := (s.rxHead.val + 20 - s.rxTail.val) % 20

/-- Read `n` consecutive bytes of the circular buffer starting at index `t`. -/
def bufList (buf : Fin 20 → Nat) (t : Fin 20) : Nat → List Nat
  | 0 => []
  | n + 1 => buf t :: bufList buf (t + 1) n

/-- The queued bytes in FIFO order (abstraction of the circular buffer). -/
def queueList (s : HubState) : List Nat := bufList s.rxBuffer s.rxTail (qsize s)

/-- The serial-receive ISR body (lines 195-210): compute `nextHead` with the
explicit wraparound, and store the byte only if the buffer is not full. -/
def rxPush (b : Nat) (s : HubState) : HubState :=
  let nextHead : Fin 20 := s.rxHead + 1
  if nextHead ≠ s.rxTail then
    { s with rxBuffer := Function.update s.rxBuffer s.rxHead b, rxHead := nextHead }
  else s

/-- The read-out step of `midiThru` (lines 290-299): if the queue is nonempty
take the byte at `rxTail` and advance `rxTail` with wraparound. -/
def rxPop (s : HubState) : Option (Nat × HubState) :=
  if s.rxHead = s.rxTail then none
  else some (s.rxBuffer s.rxTail, { s with rxTail := s.rxTail + 1 })

/-- Push a whole list of bytes through the receive ISR, oldest first. -/
def pushAll (bs : List Nat) (s : HubState) : HubState :=
  bs.foldl (fun t b => rxPush b t) s

/-- Pop `n` bytes (stopping early if the queue empties), collecting them in
arrival order. -/
def drainN : Nat → HubState → List Nat
  | 0, _ => []
  | n + 1, s =>
    match rxPop s with
    | none => []
    | some (b, s') => b :: drainN n s'

/-- The forwarding decision of `midiThru` (lines 301-313): a byte whose top
five bits are `11111` (`(q & 0xF8) == 0xF8`) is forwarded when
`OPTION_PASSREALTIMEMSG` is set; any other byte when `OPTION_PASSOTHERMSG`
is set. -/
def midiForwards (options q : Nat) : Bool :=
  if q &&& 0xF8 = 0xF8 then options &&& OPTION_PASSREALTIMEMSG ≠ 0
  else options &&& OPTION_PASSOTHERMSG ≠ 0

/-- The state change of one forwarded `midiThru` byte: the byte has been
taken out of the queue (`rxTail` advanced), and in `MODE_NOCLOCK` with
`OPTION_THRUANIMATE` set the LED duty `duty[q%6] = q%INITIAL_DUTY` is
stamped (lines 315-321); otherwise the transient LED flicker (lines
324-331) touches only output ports, which are outside the state. -/
def thruState (s : HubState) (q : Nat) : HubState :=
  let s1 := { s with rxTail := s.rxTail + 1 }
  if s.mode = MODE_NOCLOCK ∧ s.options &&& OPTION_THRUANIMATE ≠ 0 then
    { s1 with duty := Function.update s1.duty ⟨q % 6, Nat.mod_lt _ (by omega)⟩ (q % INITIAL_DUTY) }
  else s1

/-- One full run of `midiThru` (lines 277-333), fuelled.  The C loop drains
the queue to exhaustion; since the queue never holds more than 19 bytes,
fuel `SZ_RXBUFFER = 20` always suffices (proved below).  A forwarded byte
is `send`-ed (appended to the output list).  The hardware overrun recovery
(lines 284-288) only toggles a UART register. -/
def midiThruAux : Nat → HubState → HubState × List Nat
  | 0, s => (s, [])
  | fuel + 1, s =>
    if s.rxHead = s.rxTail then (s, [])
    else
      let q := s.rxBuffer s.rxTail
      if midiForwards s.options q then
        let r := midiThruAux fuel (thruState s q)
        (r.1, q :: r.2)
      else midiThruAux fuel { s with rxTail := s.rxTail + 1 }

/-- `midiThru` as called once per main-loop iteration. -/
def midiThru (s : HubState) : HubState × List Nat := midiThruAux SZ_RXBUFFER s

/-- The period computed by the tap handler (lines 755-756):
`period = systemTicks - firstTapSystemTicks; period = period / tapCount`
(C `unsigned long` arithmetic). -/
def tapPeriod (now first count : Nat) : Nat := usub32 now first / count

/-- The Dec-press tap branch (lines 747-760): start a session on the first
tap; otherwise, while `tapCount < 6` and `systemTicks > firstTapSystemTicks`,
derive the BPM from the average period and bump the count; always record
`lastTapSystemTicks`. -/
def tapRegister (s : HubState) : HubState :=
  let s1 :=
    if s.tapCount = 0 then
      { s with tapCount := 1, firstTapSystemTicks := s.systemTicks }
    else if s.tapCount < 6 ∧ s.systemTicks > s.firstTapSystemTicks then
      let period := tapPeriod s.systemTicks s.firstTapSystemTicks s.tapCount
      let s2 := setBPM (toInt16 (60000 / period)) s
      { s2 with tapCount := s2.tapCount + 1 }
    else s
  { s1 with lastTapSystemTicks := s1.systemTicks }

/-- The shared Dec fall-through body (lines 763-767): in `MODE_STEP`,
decrement the BPM. -/
def stepDec (s : HubState) : HubState :=
  if s.mode = MODE_STEP then setBPM (s.bpm - 1) s else s

/-- The shared Inc fall-through body (lines 798-802): in `MODE_STEP`,
increment the BPM. -/
def stepInc (s : HubState) : HubState :=
  if s.mode = MODE_STEP then setBPM (s.bpm + 1) s else s

/-- The `M_BUTTON_DEC` case (lines 720-767).  In `MODE_MENU`, cursor 5 cycles
the brightness level while any other cursor toggles the option bit at the
cursor; both branches then persist via `saveOptions`.  In `MODE_NOCLOCK` it
leaves for `MODE_STEP`; in `MODE_TAP` it registers a tap; otherwise (the C
`switch` fall-through, mode = `MODE_STEP`) it decrements the BPM. -/
def decPress (s : HubState) : HubState × List Nat :=
  if s.mode = MODE_MENU then
    let s1 :=
      if s.menuOption = 5 then
        let b := (s.brightness + 1) % NUM_BRIGHTNESS_LEVELS
        { s with brightness := b, maxDuty := brightnessLevels b }
      else
        { s with options := s.options ^^^ (1 <<< s.menuOption) }
    (saveOptions s1, [])
  else if s.mode = MODE_NOCLOCK then ({ s with mode := MODE_STEP }, [])
  else if s.mode = MODE_TAP then (tapRegister s, [])
  else (stepDec s, [])

/-- The `M_BUTTON_INC` case (lines 771-802).  In `MODE_MENU` it advances the
cursor (wrapping at `MENU_SIZE`); in `MODE_NOCLOCK` it toggles `running`
emitting STOP/CONTINUE and then (no `break` in the C) falls into the
`MODE_TAP` test, which fails, and the step body, which is a no-op outside
`MODE_STEP`; in `MODE_TAP` it returns to `MODE_STEP`; in `MODE_STEP` it
increments the BPM. -/
def incPress (s : HubState) : HubState × List Nat :=
  if s.mode = MODE_MENU then ({ s with menuOption := (s.menuOption + 1) % MENU_SIZE }, [])
  else
    let r1 :=
      if s.mode = MODE_NOCLOCK then
        if s.running then (({ s with running := false } : HubState), [MIDI_SYNCH_STOP])
        else (({ s with running := true } : HubState), [MIDI_SYNCH_CONTINUE])
      else (s, [])
    let s1 := r1.1
    if s1.mode = MODE_TAP then ({ s1 with mode := MODE_STEP }, r1.2)
    else (stepInc s1, r1.2)

/-- The `M_BUTTON_RUN` case (lines 666-704). -/
def runPress (s : HubState) : HubState × List Nat :=
  if s.mode = MODE_TAP ∨ s.mode = MODE_STEP then
    if s.runLock then ({ s with midiRestart := true }, [])
    else
      let running' := !s.running
      if s.options &&& OPTION_STARTSTOP ≠ 0 then
        if running' then ({ s with running := true, tickCount := 0 }, [MIDI_SYNCH_START])
        else ({ s with running := false }, [MIDI_SYNCH_STOP])
      else ({ s with running := running' }, [])
  else if s.mode = MODE_NOCLOCK then ({ s with running := true }, [MIDI_SYNCH_START])
  else ({ s with mode := MODE_STEP, running := false }, [])

/-- The `M_BUTTON_RUN|M_LONG_PRESS` case (lines 706-716): toggle `runLock`;
entering run-lock also forces `running`. -/
def runLongPress (s : HubState) : HubState × List Nat :=
  if !s.runLock then ({ s with runLock := true, running := true }, [])
  else ({ s with runLock := false }, [])

/-- The button-command `switch` (lines 636-804) on the assembled
`thisButtonStatus` byte. -/
def handleButtons (status : Nat) (s : HubState) : HubState × List Nat :=
  if status = M_BUTTON_RUN ||| M_BUTTON_DEC ||| M_BUTTON_INC then
    ({ s with menuOption := 0, mode := MODE_MENU }, [])
  else if status = M_BUTTON_RUN ||| M_BUTTON_DEC then ({ s with mode := MODE_TAP }, [])
  else if status = M_BUTTON_RUN ||| M_BUTTON_INC then ({ s with mode := MODE_NOCLOCK }, [])
  else if status = M_BUTTON_INC ||| M_BUTTON_DEC then
    (if s.mode = MODE_STEP then setBPM BPM_DEFAULT s else s, [])
  else if status = M_BUTTON_RUN then runPress s
  else if status = M_BUTTON_RUN ||| M_LONG_PRESS then runLongPress s
  else if status = M_BUTTON_DEC then decPress s
  else if status = M_LONG_PRESS ||| M_BUTTON_DEC ∨ status = M_AUTO_REPEAT ||| M_BUTTON_DEC then
    (stepDec s, [])
  else if status = M_BUTTON_INC then incPress s
  else if status = M_LONG_PRESS ||| M_BUTTON_INC ∨ status = M_AUTO_REPEAT ||| M_BUTTON_INC then
    (stepInc s, [])
  else (s, [])

/-- The LED fade-due test from the `MODE_NOCLOCK` branch (line 485):
`systemTicks > nextFade` — a direct magnitude comparison of the two
(wrapping) `unsigned long` values. -/
def fadeCheck (ticks nextF : Nat) : Bool := ticks > nextF

/-- The new fade deadline (line 490): `nextFade = systemTicks + FADE_PERIOD`
in wrapping 32-bit arithmetic. -/
def fadeDeadline (ticks : Nat) : Nat := (ticks + FADE_PERIOD) % U32

/-- The debounce gate (line 588): `systemTicks >= debouncePeriodEnd` —
a direct magnitude comparison. -/
def debounceCheck (ticks deadline : Nat) : Bool := ticks ≥ deadline

/-- The new debounce deadline (line 629):
`debouncePeriodEnd = systemTicks + DEBOUNCE_PERIOD` (wrapping). -/
def debounceDeadline (ticks : Nat) : Nat := (ticks + DEBOUNCE_PERIOD) % U32

/-- The auto-repeat start test (line 603): `systemTicks > autoRepeatBegin` —
a direct magnitude comparison. -/
def autoRepeatBeginCheck (ticks begins : Nat) : Bool := ticks > begins

/-- The auto-repeat start deadline (line 626):
`autoRepeatBegin = systemTicks + AUTO_REPEAT_DELAY` (wrapping). -/
def autoRepeatBeginDeadline (ticks : Nat) : Nat := (ticks + AUTO_REPEAT_DELAY) % U32

/-- The auto-repeat interval test (line 611): `systemTicks > nextAutoRepeat`
— a direct magnitude comparison. -/
def autoRepeatNextCheck (ticks nextAR : Nat) : Bool := ticks > nextAR

/-- The auto-repeat interval deadline (lines 609/615):
`nextAutoRepeat = systemTicks + AUTO_REPEAT_INTERVAL` (wrapping). -/
def autoRepeatNextDeadline (ticks : Nat) : Nat := (ticks + AUTO_REPEAT_INTERVAL) % U32

/-- The tap-session timeout test (line 523):
`systemTicks - lastTapSystemTicks > 1000` — this one is a wraparound-safe
unsigned subtraction. -/
def tapTimeoutCheck (ticks lastTap : Nat) : Bool := usub32 ticks lastTap > 1000

/-- The `MODE_MENU` branch of the main loop (lines 468-478). -/
def menuAnimate (s : HubState) : HubState :=
  let mlc := (s.menuLoopCount + 1) % U32
  let flash := mlc &&& 0xF00 = 0x100
  let d : Fin 6 → Nat := fun i =>
    if i.val = 5 then s.maxDuty
    else if flash ∧ s.menuOption = i.val then PWM_MAX
    else if s.options &&& (1 <<< i.val) ≠ 0 then PWM_DIM else 0
  { s with menuLoopCount := mlc, duty := d }

/-- The `MODE_NOCLOCK` branch of the main loop (lines 481-492): fade every
nonzero duty by one when the fade deadline has passed. -/
def noClockFade (s : HubState) : HubState :=
  if fadeCheck s.systemTicks s.nextFade then
    let d : Fin 6 → Nat := fun i => if s.duty i ≠ 0 then s.duty i - 1 else s.duty i
    { s with duty := d, nextFade := fadeDeadline s.systemTicks }
  else s

/-- The LED/tap-session part of the tick branch (lines 511-574), executed
with the already-updated `tickCount`. -/
def clockLeds (s : HubState) : HubState :=
  if s.tapCount ≠ 0 then
    let d : Fin 6 → Nat := fun i =>
      if i.val = 0 then PWM_MAX
      else if s.tapCount > i.val then s.maxDuty else 0
    let s1 := { s with duty := d }
    if tapTimeoutCheck s1.systemTicks s1.lastTapSystemTicks then
      { s1 with lastTapSystemTicks := 0, firstTapSystemTicks := 0, tapCount := 0 }
    else s1
  else if s.running then
    if s.options &&& OPTION_DISCREET ≠ 0 then
      let d : Fin 6 → Nat := fun i =>
        if i.val = 0 then s.maxDuty
        else if i.val = 5 ∧ s.tickCount = 1 then s.maxDuty else 0
      { s with duty := d }
    else
      let whichLED := s.tickCount / 4
      let d : Fin 6 → Nat := fun i => if i.val = whichLED then s.maxDuty else 0
      { s with duty := d }
  else
    if s.options &&& OPTION_DISCREET ≠ 0 then
      let d : Fin 6 → Nat := fun i =>
        if i.val = 5 ∧ s.tickCount = 0 then s.maxDuty else 0
      { s with duty := d }
    else
      let d : Fin 6 → Nat := fun i =>
        if i.val = 2 ∨ i.val = 3 then 0
        else if s.tickCount = 0 then s.maxDuty else 0
      { s with duty := d }

/-- The `MODE_STEP`/`MODE_TAP` tick branch (lines 495-575): consume the
one-shot `tick_flag`; advance `tickCount` wrapping after 23, emitting the
deferred START exactly at the wrap; then emit the tick byte if `running`;
then run the LED/tap-session updates. -/
def clockTick (s : HubState) : HubState × List Nat :=
  if s.tick_flag then
    let s0 := { s with tick_flag := false }
    let r1 :=
      if s0.tickCount + 1 > 23 then
        if s0.midiRestart then
          (({ s0 with midiRestart := false, tickCount := 0 } : HubState), [MIDI_SYNCH_START])
        else (({ s0 with tickCount := 0 } : HubState), [])
      else (({ s0 with tickCount := s0.tickCount + 1 } : HubState), [])
    let tickOut := if r1.1.running then [MIDI_SYNCH_TICK] else []
    (clockLeds r1.1, r1.2 ++ tickOut)
  else (s, [])

/-- The per-mode section of one main-loop iteration (lines 468-575). -/
def modeSection (s : HubState) : HubState × List Nat :=
  if s.mode = MODE_MENU then (menuAnimate s, [])
  else if s.mode = MODE_NOCLOCK then (noClockFade s, [])
  else clockTick s

/-- The timer-1 ISR raising the one-shot tempo tick (lines 183-189). -/
def raiseTick (s : HubState) : HubState := { s with tick_flag := true }

/-- `n` consecutive main-loop mode sections with no intervening interrupt. -/
def pollN : Nat → HubState → HubState
  | 0, s => s
  | n + 1, s => pollN n (modeSection s).1

/-- Interleave tempo-tick interrupts with main-loop iterations: for each
entry `n` of the list, raise the tick signal and then run `n` mode
sections before the next tick arrives. -/
def runTickGroups : List Nat → HubState → HubState
  | [], s => s
  | n :: rest, s => runTickGroups rest (pollN n (raiseTick s))

/-- The state `main` reaches just before entering the application loop
(lines 374-458: app variables zeroed, brightness table set, `maxDuty` =
`brightnessLevels[0]`, duties cleared, `setBPM(BPM_DEFAULT)` applied, mode
`MODE_STEP`), with an empty receive queue and an EEPROM holding a valid
default save. -/
def initState : HubState :=
  let e0 : Nat → Nat := fun _ => 0
  let e1 := eeprom_write EEPROM_ADDR_OPTIONS OPTIONS_DEFAULT e0
  let e2 := eeprom_write EEPROM_ADDR_MAGIC_COOKIE EEPROM_MAGIC_COOKIE e1
  setBPM BPM_DEFAULT
    { rxBuffer := fun _ => 0
      rxHead := 0
      rxTail := 0
      options := OPTIONS_DEFAULT
      mode := MODE_STEP
      brightness := 0
      maxDuty := 50
      duty := fun _ => 0
      bpm := 0
      timer_init_scalar := 0
      tick_flag := false
      systemTicks := 0
      running := false
      tickCount := 0
      runLock := false
      midiRestart := false
      tapCount := 0
      firstTapSystemTicks := 0
      lastTapSystemTicks := 0
      menuOption := 0
      menuLoopCount := 0
      nextFade := 0
      eeprom := e2 }

/-- The clamp inside `setBPM` agrees with the spec's clamp, and the stored
reload value is `65535 - 1250000 / bpm` with truncating division. -/
theorem setBPM_spec (b : Int) (s : HubState) :
    (setBPM b s).bpm = clampSpec b ∧
    (setBPM b s).timer_init_scalar = 65535 - 1250000 / (clampSpec b).toNat := by
  have hclamp : (if b < BPM_MIN then BPM_MIN else if b > BPM_MAX then BPM_MAX else b) = clampSpec b := by
    simp only [clampSpec, BPM_MIN, BPM_MAX]
    split_ifs <;> omega
  constructor
  · simp only [setBPM, hclamp]
  · simp only [setBPM, hclamp, TIMER_COUNTS_PER_SECOND]

/-- `1250000 / bpm` is strictly decreasing for bpm in `[30, 300]`. -/
theorem div_1250000_strict_anti {b1 b2 : Nat} (h30 : 30 ≤ b1) (hlt : b1 < b2) (h300 : b2 ≤ 300) :
    1250000 / b2 < 1250000 / b1 := by
  have key : ∀ b : Nat, 30 ≤ b → b < 300 → 1250000 / (b + 1) < 1250000 / b := by
    intro b hb hb'
    have hq : b + 1 ≤ 1250000 / (b + 1) := by
      rw [Nat.le_div_iff_mul_le (by omega)]
      have : (b + 1) * (b + 1) ≤ 300 * 300 := Nat.mul_le_mul (by omega) (by omega)
      omega
    have hmul : 1250000 / (b + 1) * (b + 1) ≤ 1250000 := Nat.div_mul_le_self _ _
    have : 1250000 / (b + 1) + 1 ≤ 1250000 / b := by
      rw [Nat.le_div_iff_mul_le (by omega)]
      nlinarith [hq, hmul]
    omega
  have h1 : 1250000 / b2 ≤ 1250000 / (b1 + 1) := Nat.div_le_div_left hlt (by omega)
  have h2 : 1250000 / (b1 + 1) < 1250000 / b1 := key b1 h30 (by omega)
  omega

/-- C2 counterexample: at `setBPM 100` the stored reload value is `53035`,
but the claimed formula `65536 - round(1250000/100)` gives `53036`; the
claim fails at input `100`. -/
theorem c2_reload_counterexample :
    (setBPM 100 initState).bpm = 100 ∧
    (setBPM 100 initState).timer_init_scalar = 53035 ∧
    specReloadClaimed 100 = 53036 ∧
    (setBPM 100 initState).timer_init_scalar ≠ specReloadClaimed 100 := by
  refine ⟨by decide, by decide, by decide, by decide⟩

/-- C2 (amended): after `setBPM b` the stored tempo is `b` clamped to
`[30, 300]` and the timer reload value is
`MAX_TIMER_VALUE - floor(60 * COUNTS_PER_SECOND / 24 / bpm)`
= `65535 - floor(1250000 / bpm)` computed from the clamped tempo
(truncating division and `65535`, not `65536 - round(...)`). -/
theorem c2_setbpm_amended (b : Int) (s : HubState) :
    (setBPM b s).bpm = clampSpec b ∧
    (setBPM b s).timer_init_scalar = specReloadAmended (clampSpec b).toNat := by
  obtain ⟨h1, h2⟩ := setBPM_spec b s
  exact ⟨h1, by rw [h2]; rfl⟩

/-- C3 counterexample: the reload value grows (does not shrink) as BPM
grows: at BPM 30 it is 23869 and at BPM 31 it is 25213. -/
theorem c3_reload_counterexample :
    (setBPM 30 initState).timer_init_scalar = 23869 ∧
    (setBPM 31 initState).timer_init_scalar = 25213 ∧
    ¬ (setBPM 31 initState).timer_init_scalar < (setBPM 30 initState).timer_init_scalar := by
  refine ⟨by decide, by decide, by decide⟩

/-- C3 (amended): for BPM in `[30,300]`, `setBPM` followed by reading back
the tempo yields the (identity) clamped value, and the timer reload value
strictly increases as BPM increases — equivalently, the timer count per
tick `floor(1250000/bpm)` strictly decreases, so the tick rate strictly
increases with tempo. -/
theorem c3_reload_monotone_amended (b1 b2 : Int) (s1 s2 : HubState)
    (h1 : 30 ≤ b1) (h2 : b1 < b2) (h3 : b2 ≤ 300) :
    (setBPM b1 s1).bpm = b1 ∧ (setBPM b2 s2).bpm = b2 ∧
    (setBPM b1 s1).timer_init_scalar < (setBPM b2 s2).timer_init_scalar := by
  obtain ⟨hb1, ht1⟩ := setBPM_spec b1 s1
  obtain ⟨hb2, ht2⟩ := setBPM_spec b2 s2
  have hc1 : clampSpec b1 = b1 := by unfold clampSpec; omega
  have hc2 : clampSpec b2 = b2 := by unfold clampSpec; omega
  refine ⟨by rw [hb1, hc1], by rw [hb2, hc2], ?_⟩
  rw [ht1, ht2, hc1, hc2]
  have hanti : 1250000 / b2.toNat < 1250000 / b1.toNat :=
    div_1250000_strict_anti (by omega) (by omega) (by omega)
  have hbound : 1250000 / b1.toNat ≤ 1250000 / 30 := Nat.div_le_div_left (by omega) (by omega)
  omega

/-- Witness for C3's amended theorem at BPM 30 < 300. -/
theorem c3_reload_monotone_witness :
    (setBPM 30 initState).timer_init_scalar < (setBPM 300 initState).timer_init_scalar :=
  (c3_reload_monotone_amended 30 300 initState initState (by norm_num) (by norm_num)
    (by norm_num)).2.2

/-- C7 counterexample: the stated preconditions (`count < 6` and a nonzero
elapsed time, here `now = 1 > 0 = firstTapTime`) do not make the computed
period nonzero: with two prior taps (`count = 2`) the period is `1 / 2 = 0`,
so `60000 / period` would divide by zero. -/
theorem c7_tap_period_counterexample :
    0 < (2 : Nat) ∧ (2 : Nat) < 6 ∧ (0 : Nat) < 1 ∧ tapPeriod 1 0 2 = 0 := by
  refine ⟨by decide, by decide, by decide, by decide⟩

/-- C7 (amended): the guards `count < 6` and `now > firstTapTime` alone do
not force the period to be nonzero; under the additional precondition that
the elapsed time is at least `count` milliseconds (which holds whenever
consecutive taps are at least 1 ms apart, in particular under the 100 ms
debounce gate), `period = (now - firstTapTime) / count` is nonzero and
`60000 / period` does not divide by zero. -/
theorem c7_tap_period_amended (now first count : Nat)
    (hc0 : 0 < count) (hc : count < 6) (hf : first < now) (hw : now < U32)
    (he : count ≤ now - first) :
    tapPeriod now first count ≠ 0 := by
  have husub : usub32 now first = now - first := by
    unfold usub32
    have h : now + U32 - first = (now - first) + U32 := by omega
    rw [h, Nat.add_mod_right]
    exact Nat.mod_eq_of_lt (by omega)
  unfold tapPeriod
  rw [husub]
  have hpos : 0 < (now - first) / count := Nat.div_pos he hc0
  omega

/-- Witness for C7's amended theorem: four taps 100 ms apart. -/
theorem c7_tap_period_witness : tapPeriod 400 0 4 ≠ 0 :=
  c7_tap_period_amended 400 0 4 (by decide) (by decide) (by decide) (by decide) (by decide)

/-- C9: saving the options and reloading them with no intervening write
yields the same options byte; reloading when the stored cookie differs from
`EEPROM_MAGIC_COOKIE` yields the compiled-in `OPTIONS_DEFAULT` instead. -/
theorem c9_options_roundtrip (s : HubState) :
    (s.options < 256 → (loadOptions (saveOptions s)).options = s.options) ∧
    (s.eeprom EEPROM_ADDR_MAGIC_COOKIE ≠ EEPROM_MAGIC_COOKIE →
      (loadOptions s).options = OPTIONS_DEFAULT) := by
  constructor
  · intro h
    simp only [loadOptions, saveOptions, eeprom_write, EEPROM_ADDR_OPTIONS,
      EEPROM_ADDR_MAGIC_COOKIE, EEPROM_MAGIC_COOKIE, Function.update_apply]
    norm_num
    omega
  · intro h
    simp [loadOptions, h]

/-- Witness for C9 at the options value `0b00010110 = 22` and at a zeroed
(cookie-corrupted) store. -/
theorem c9_options_roundtrip_witness :
    (loadOptions (saveOptions { initState with options := 22 })).options = 22 ∧
    (loadOptions { initState with eeprom := fun _ => 0 }).options = OPTIONS_DEFAULT :=
  ⟨(c9_options_roundtrip _).1 (by decide), (c9_options_roundtrip _).2 (by decide)⟩

/-- C10: a Run long-press while `runLock` is set clears `runLock` and
changes nothing else — the entire rest of the state (in particular
`running`, the mode, tempo, tick phase and options) is untouched and no
MIDI byte is emitted; while `runLock` is clear it sets both `runLock` and
`running` (and changes nothing else, emitting nothing). -/
theorem c10_runlock_longpress (s : HubState) :
    (s.runLock = true →
      handleButtons (M_BUTTON_RUN ||| M_LONG_PRESS) s = ({ s with runLock := false }, [])) ∧
    (s.runLock = false →
      handleButtons (M_BUTTON_RUN ||| M_LONG_PRESS) s
        = ({ s with runLock := true, running := true }, [])) := by
  constructor <;> intro h <;>
    simp [handleButtons, runLongPress, h, M_BUTTON_RUN, M_BUTTON_DEC, M_BUTTON_INC,
      M_LONG_PRESS, M_AUTO_REPEAT]

/-- Witness for C10: a concrete run-locked, running state is only unlocked
by the long press, and a concrete unlocked state becomes locked and
running. -/
theorem c10_runlock_longpress_witness :
    handleButtons (M_BUTTON_RUN ||| M_LONG_PRESS)
        { initState with runLock := true, running := true }
      = ({ initState with running := true, runLock := false }, []) ∧
    handleButtons (M_BUTTON_RUN ||| M_LONG_PRESS) initState
      = ({ initState with runLock := true, running := true }, []) :=
  ⟨(c10_runlock_longpress _).1 rfl, (c10_runlock_longpress _).2 rfl⟩

/-- C8 counterexample: in Menu mode with the cursor at position 5, a single
Dec press leaves the options bitmask unchanged (it cycles the brightness
level instead), whereas toggling option bit 5 would have changed it; the
claim fails for cursor position 5. -/
theorem c8_menu_dec_counterexample :
    ({ initState with mode := MODE_MENU, menuOption := 5 } : HubState).menuOption = 5 ∧
    (handleButtons M_BUTTON_DEC { initState with mode := MODE_MENU, menuOption := 5 }).1.options
      = initState.options ∧
    initState.options ^^^ (1 <<< 5) ≠ initState.options := by
  refine ⟨by decide, by decide, by decide⟩

/-- C8 (amended): in Menu mode, for cursor positions 0 through 4 a single
Dec press toggles exactly the option bit at the cursor (all other bits
unchanged) and persists the options with the magic cookie; for cursor
position 5 it cycles the brightness level instead, leaves the options
bitmask unchanged, and still persists it. -/
theorem c8_menu_dec_amended (s : HubState) (hm : s.mode = MODE_MENU) (ho : s.options < 256) :
    (s.menuOption < 5 →
      ((handleButtons M_BUTTON_DEC s).1.options.testBit s.menuOption
          = ! s.options.testBit s.menuOption) ∧
      (∀ j, j ≠ s.menuOption →
        (handleButtons M_BUTTON_DEC s).1.options.testBit j = s.options.testBit j) ∧
      (handleButtons M_BUTTON_DEC s).1.eeprom EEPROM_ADDR_OPTIONS
          = (handleButtons M_BUTTON_DEC s).1.options ∧
      (handleButtons M_BUTTON_DEC s).1.eeprom EEPROM_ADDR_MAGIC_COOKIE = EEPROM_MAGIC_COOKIE) ∧
    (s.menuOption = 5 →
      (handleButtons M_BUTTON_DEC s).1.options = s.options ∧
      (handleButtons M_BUTTON_DEC s).1.brightness = (s.brightness + 1) % NUM_BRIGHTNESS_LEVELS ∧
      (handleButtons M_BUTTON_DEC s).1.eeprom EEPROM_ADDR_OPTIONS = s.options ∧
      (handleButtons M_BUTTON_DEC s).1.eeprom EEPROM_ADDR_MAGIC_COOKIE = EEPROM_MAGIC_COOKIE) := by
  have hdp : handleButtons M_BUTTON_DEC s = decPress s := by
    simp [handleButtons, M_BUTTON_RUN, M_BUTTON_DEC, M_BUTTON_INC, M_LONG_PRESS, M_AUTO_REPEAT]
  have hsaveO : ∀ t : HubState, (saveOptions t).options = t.options := by
    intro t; simp [saveOptions]
  have hsaveB : ∀ t : HubState, (saveOptions t).brightness = t.brightness := by
    intro t; simp [saveOptions]
  have hsaveE10 : ∀ t : HubState, (saveOptions t).eeprom EEPROM_ADDR_OPTIONS = t.options % 256 := by
    intro t
    simp [saveOptions, eeprom_write, Function.update_apply, EEPROM_ADDR_OPTIONS,
      EEPROM_ADDR_MAGIC_COOKIE]
  have hsaveE9 : ∀ t : HubState, (saveOptions t).eeprom EEPROM_ADDR_MAGIC_COOKIE = EEPROM_MAGIC_COOKIE := by
    intro t
    simp [saveOptions, eeprom_write, Function.update_apply, EEPROM_ADDR_MAGIC_COOKIE,
      EEPROM_MAGIC_COOKIE]
  rw [hdp]
  constructor
  · intro h5
    have hne : ¬ s.menuOption = 5 := by omega
    have hcase : (decPress s).1 = saveOptions { s with options := s.options ^^^ (1 <<< s.menuOption) } := by
      simp [decPress, hm, hne]
    have hxlt : s.options ^^^ (1 <<< s.menuOption) < 256 := by
      have h1 : (1 <<< s.menuOption) < 2 ^ 8 := by
        rw [Nat.shiftLeft_eq, one_mul]
        have : (2 : Nat) ^ s.menuOption ≤ 2 ^ 4 := Nat.pow_le_pow_right (by omega) (by omega)
        omega
      exact Nat.xor_lt_two_pow (n := 8) ho h1
    rw [hcase]
    refine ⟨?_, ?_, ?_, hsaveE9 _⟩
    · rw [hsaveO]
      show (s.options ^^^ (1 <<< s.menuOption)).testBit s.menuOption = _
      rw [Nat.testBit_xor, Nat.shiftLeft_eq, one_mul, Nat.testBit_two_pow]
      simp
    · intro j hj
      rw [hsaveO]
      show (s.options ^^^ (1 <<< s.menuOption)).testBit j = _
      rw [Nat.testBit_xor, Nat.shiftLeft_eq, one_mul, Nat.testBit_two_pow]
      have hj2 : ¬ s.menuOption = j := fun h => hj h.symm
      simp [hj2]
    · rw [hsaveE10, hsaveO]
      exact Nat.mod_eq_of_lt hxlt
  · intro h5
    have hcase : (decPress s).1 = saveOptions { s with
        brightness := (s.brightness + 1) % NUM_BRIGHTNESS_LEVELS,
        maxDuty := brightnessLevels ((s.brightness + 1) % NUM_BRIGHTNESS_LEVELS) } := by
      simp [decPress, hm, h5]
    rw [hcase]
    refine ⟨hsaveO _, hsaveB _, ?_, hsaveE9 _⟩
    rw [hsaveE10]
    exact Nat.mod_eq_of_lt ho

/-- Witness for C8: from the initial options (`0b1110`), cursor 2 flips bit
2 and cursor 5 leaves the options untouched. -/
theorem c8_menu_dec_witness :
    ((handleButtons M_BUTTON_DEC { initState with mode := MODE_MENU, menuOption := 2 }).1.options.testBit 2
      = ! ({ initState with mode := MODE_MENU, menuOption := 2 } : HubState).options.testBit 2) ∧
    (handleButtons M_BUTTON_DEC { initState with mode := MODE_MENU, menuOption := 5 }).1.options
      = ({ initState with mode := MODE_MENU, menuOption := 5 } : HubState).options :=
  ⟨((c8_menu_dec_amended _ rfl (by decide)).1 (by decide)).1,
   ((c8_menu_dec_amended _ rfl (by decide)).2 rfl).1⟩

/-- C6 counterexample: the debounce deadline and the LED fade deadline are
compared by direct magnitude comparison, so after the 32-bit counter wraps
between the reference time (`2^32 - 10`) and the comparison, the checks
fire only 1 ms after being armed — before their configured 100 ms / 30 ms
intervals — refuting that every listed comparison is wraparound-safe. -/
theorem c6_wraparound_counterexample :
    debounceCheck ((4294967286 + 1) % U32) (debounceDeadline 4294967286) = true ∧
    (1 : Nat) < DEBOUNCE_PERIOD ∧
    fadeCheck ((4294967286 + 1) % U32) (fadeDeadline 4294967286) = true ∧
    (1 : Nat) < FADE_PERIOD := by
  refine ⟨by decide, by decide, by decide, by decide⟩

/-- C6 (amended): only the tap-session timeout is computed by
wraparound-safe unsigned subtraction — for any reference time and any
elapsed time below `2^32` it triggers exactly when more than 1000 ms have
elapsed, wrap or no wrap.  The debounce deadline, the auto-repeat start and
interval deadlines, and the LED fade period are direct magnitude
comparisons of absolute counter values, and when the deadline wraps they
fire immediately (2 ms after being armed, far before their configured
intervals). -/
theorem c6_wraparound_amended :
    (∀ last elapsed : Nat, last < U32 → elapsed < U32 →
      tapTimeoutCheck ((last + elapsed) % U32) last = decide (elapsed > 1000)) ∧
    debounceCheck ((4294967286 + 2) % U32) (debounceDeadline 4294967286) = true ∧
    autoRepeatBeginCheck ((4294967286 + 2) % U32) (autoRepeatBeginDeadline 4294967286) = true ∧
    autoRepeatNextCheck ((4294967286 + 2) % U32) (autoRepeatNextDeadline 4294967286) = true ∧
    fadeCheck ((4294967286 + 2) % U32) (fadeDeadline 4294967286) = true := by
  refine ⟨?_, by decide, by decide, by decide, by decide⟩
  intro last elapsed hl he
  have hu : usub32 ((last + elapsed) % U32) last = elapsed := by
    unfold usub32
    have hA : (last + elapsed) % U32 + U32 - last = (last + elapsed) % U32 + (U32 - last) := by
      omega
    rw [hA, Nat.mod_add_mod]
    have h2 : last + elapsed + (U32 - last) = elapsed + U32 := by omega
    rw [h2, Nat.add_mod_right]
    exact Nat.mod_eq_of_lt he
  unfold tapTimeoutCheck
  rw [hu]

/-- Witness for C6's amended theorem: a 1500 ms gap that straddles the wrap
still triggers the tap-session timeout. -/
theorem c6_wraparound_witness :
    tapTimeoutCheck ((4294967286 + 1500) % U32) 4294967286 = decide ((1500 : Nat) > 1000) :=
  c6_wraparound_amended.1 4294967286 1500 (by decide) (by decide)

/-- Popping one byte shrinks the queue by one and peels the head of the
FIFO abstraction. -/
theorem queue_pop_step (s : HubState) (hne : ¬ s.rxHead = s.rxTail) :
    qsize { s with rxTail := s.rxTail + 1 } = qsize s - 1 ∧
    1 ≤ qsize s ∧
    queueList s = s.rxBuffer s.rxTail :: queueList { s with rxTail := s.rxTail + 1 } := by
  have hh := s.rxHead.isLt
  have ht := s.rxTail.isLt
  have hv : ¬ s.rxHead.val = s.rxTail.val := fun h => hne (Fin.ext h)
  have hadd : (s.rxTail + 1 : Fin 20).val = (s.rxTail.val + 1) % 20 := by
    rw [Fin.val_add]
    norm_num
  have hq1 : qsize { s with rxTail := s.rxTail + 1 } = qsize s - 1 := by
    show ((s.rxHead.val + 20) - (s.rxTail + 1 : Fin 20).val) % 20
        = ((s.rxHead.val + 20) - s.rxTail.val) % 20 - 1
    rw [hadd]
    omega
  have hone : 1 ≤ qsize s := by
    show 1 ≤ ((s.rxHead.val + 20) - s.rxTail.val) % 20
    omega
  refine ⟨hq1, hone, ?_⟩
  have hql : queueList { s with rxTail := s.rxTail + 1 }
      = bufList s.rxBuffer (s.rxTail + 1) (qsize s - 1) := by
    unfold queueList
    rw [hq1]
  rw [hql]
  show bufList s.rxBuffer s.rxTail (qsize s) = _
  have hk : qsize s = (qsize s - 1) + 1 := by omega
  rw [hk]
  rfl

/-- Writing the pushed byte at the head index extends the FIFO abstraction
by one element, provided the head really sits `k` slots past the start. -/
theorem bufList_push (b : Nat) :
    ∀ (k : Nat) (t h : Fin 20) (buf : Fin 20 → Nat), k < 20 → h.val = (t.val + k) % 20 →
      bufList (Function.update buf h b) t (k + 1) = bufList buf t k ++ [b] := by
  intro k
  induction k with
  | zero =>
    intro t h buf hk hh
    have htt : h = t := Fin.ext (by have := t.isLt; omega)
    subst htt
    simp [bufList, Function.update_same]
  | succ k ih =>
    intro t h buf hk hh
    have hht : ¬ h = t := by
      intro he
      have hv : h.val = t.val := by rw [he]
      have := t.isLt
      omega
    have ht1 : (t + 1 : Fin 20).val = (t.val + 1) % 20 := by
      rw [Fin.val_add]
      norm_num
    have hh' : h.val = ((t + 1 : Fin 20).val + k) % 20 := by
      rw [ht1, Nat.mod_add_mod, hh]
      congr 1
      omega
    show Function.update buf h b t :: bufList (Function.update buf h b) (t + 1) (k + 1)
        = (buf t :: bufList buf (t + 1) k) ++ [b]
    rw [Function.update_noteq (show t ≠ h from fun he => hht he.symm),
      ih (t + 1) h buf (by omega) hh']
    simp

/-- The serial-receive push onto a non-full queue appends the byte to the
FIFO abstraction and grows the queue by one. -/
theorem queue_push_step (s : HubState) (b : Nat) (hsz : qsize s ≤ 18) :
    queueList (rxPush b s) = queueList s ++ [b] ∧ qsize (rxPush b s) = qsize s + 1 := by
  have hh := s.rxHead.isLt
  have ht := s.rxTail.isLt
  have hadd : (s.rxHead + 1 : Fin 20).val = (s.rxHead.val + 1) % 20 := by
    rw [Fin.val_add]
    norm_num
  have hqs : qsize s = ((s.rxHead.val + 20) - s.rxTail.val) % 20 := rfl
  have hne : s.rxHead + 1 ≠ s.rxTail := by
    intro he
    have hv : (s.rxHead + 1 : Fin 20).val = s.rxTail.val := by rw [he]
    rw [hadd] at hv
    omega
  have hpush : rxPush b s = { s with rxBuffer := Function.update s.rxBuffer s.rxHead b, rxHead := s.rxHead + 1 } := by
    simp [rxPush, hne]
  rw [hpush]
  have hq2 : qsize { s with rxBuffer := Function.update s.rxBuffer s.rxHead b, rxHead := s.rxHead + 1 } = qsize s + 1 := by
    show (((s.rxHead + 1 : Fin 20).val + 20) - s.rxTail.val) % 20 = _
    rw [hadd]
    omega
  refine ⟨?_, hq2⟩
  have hql : queueList { s with rxBuffer := Function.update s.rxBuffer s.rxHead b, rxHead := s.rxHead + 1 } = bufList (Function.update s.rxBuffer s.rxHead b) s.rxTail (qsize s + 1) := by
    unfold queueList
    rw [hq2]
  rw [hql]
  exact bufList_push b (qsize s) s.rxTail s.rxHead s.rxBuffer (by omega) (by omega)

/-- Pushing a whole list onto a queue with enough room appends it to the
FIFO abstraction. -/
theorem queue_pushAll (bs : List Nat) :
    ∀ s : HubState, qsize s + bs.length ≤ 19 →
      queueList (pushAll bs s) = queueList s ++ bs ∧
      qsize (pushAll bs s) = qsize s + bs.length := by
  induction bs with
  | nil => intro s h; simp [pushAll]
  | cons b bs ih =>
    intro s h
    have hlen : (b :: bs).length = bs.length + 1 := rfl
    have hstep := queue_push_step s b (by omega)
    have hrec := ih (rxPush b s) (by omega)
    constructor
    · show queueList (pushAll bs (rxPush b s)) = _
      rw [hrec.1, hstep.1]
      simp
    · show qsize (pushAll bs (rxPush b s)) = _
      rw [hrec.2, hstep.2]
      omega

/-- Draining with enough fuel returns exactly the FIFO abstraction. -/
theorem drainN_spec : ∀ (n : Nat) (s : HubState), qsize s ≤ n → drainN n s = queueList s := by
  intro n
  induction n with
  | zero =>
    intro s h
    have h0 : qsize s = 0 := by omega
    unfold queueList
    rw [h0]
    rfl
  | succ n ih =>
    intro s h
    by_cases he : s.rxHead = s.rxTail
    · have h0 : qsize s = 0 := by
        show ((s.rxHead.val + 20) - s.rxTail.val) % 20 = 0
        rw [he]
        omega
      unfold queueList
      rw [h0]
      simp [drainN, rxPop, he, bufList]
    · obtain ⟨hq1, hone, hlist⟩ := queue_pop_step s he
      have hpop : rxPop s = some (s.rxBuffer s.rxTail, { s with rxTail := s.rxTail + 1 }) := by
        simp [rxPop, he]
      have hih := ih { s with rxTail := s.rxTail + 1 } (by omega)
      show drainN (n + 1) s = _
      simp only [drainN, hpop]
      rw [hih, hlist]

/-- C5: starting from an empty receive queue, pushing 19 = capacity−1 bytes
and draining them all returns exactly those bytes in FIFO order; and a push
onto a full queue (next head index equals tail) is a no-op that leaves the
whole state — buffer contents and head and tail indices — unchanged. -/
theorem c5_rxqueue_fifo :
    (∀ (s : HubState) (bs : List Nat), s.rxHead = s.rxTail → bs.length = 19 →
      drainN 19 (pushAll bs s) = bs) ∧
    (∀ (s : HubState) (b : Nat), qsize s = 19 → rxPush b s = s) := by
  constructor
  · intro s bs he hlen
    have h0 : qsize s = 0 := by
      show ((s.rxHead.val + 20) - s.rxTail.val) % 20 = 0
      rw [he]
      omega
    have hall := queue_pushAll bs s (by omega)
    have hdrain := drainN_spec 19 (pushAll bs s) (by rw [hall.2]; omega)
    rw [hdrain, hall.1]
    have hnil : queueList s = [] := by
      unfold queueList
      rw [h0]
      rfl
    rw [hnil]
    rfl
  · intro s b hfull
    have hh := s.rxHead.isLt
    have ht := s.rxTail.isLt
    have hadd : (s.rxHead + 1 : Fin 20).val = (s.rxHead.val + 1) % 20 := by
      rw [Fin.val_add]
      norm_num
    have hqs : qsize s = ((s.rxHead.val + 20) - s.rxTail.val) % 20 := rfl
    have he : s.rxHead + 1 = s.rxTail := by
      apply Fin.ext
      rw [hadd]
      omega
    simp [rxPush, he]

/-- Witness for C5: the 19 bytes `0..18` round-trip through the queue in
order, and a push onto the concrete full queue (head 19, tail 0) is a
no-op. -/
theorem c5_rxqueue_fifo_witness :
    drainN 19 (pushAll (List.range 19) initState) = List.range 19 ∧
    rxPush 7 { initState with rxHead := 19 } = { initState with rxHead := 19 } :=
  ⟨c5_rxqueue_fifo.1 initState (List.range 19) rfl (by decide),
   c5_rxqueue_fifo.2 { initState with rxHead := 19 } 7 (by decide)⟩

/-- `thruState` only advances `rxTail` and possibly stamps an LED duty: all
clock/transport fields, the buffer contents and the head index are
untouched. -/
theorem thruState_fields (s : HubState) (q : Nat) :
    (thruState s q).options = s.options ∧ (thruState s q).mode = s.mode ∧
    (thruState s q).tickCount = s.tickCount ∧ (thruState s q).tick_flag = s.tick_flag ∧
    (thruState s q).running = s.running ∧ (thruState s q).runLock = s.runLock ∧
    (thruState s q).midiRestart = s.midiRestart ∧
    (thruState s q).rxBuffer = s.rxBuffer ∧ (thruState s q).rxHead = s.rxHead ∧
    (thruState s q).rxTail = s.rxTail + 1 := by
  unfold thruState
  split_ifs <;> exact ⟨rfl, rfl, rfl, rfl, rfl, rfl, rfl, rfl, rfl, rfl⟩

/-- States that agree on the receive-queue fields have the same FIFO
abstraction. -/
theorem queueList_congr (u v : HubState) (hb : u.rxBuffer = v.rxBuffer)
    (hh : u.rxHead = v.rxHead) (ht : u.rxTail = v.rxTail) :
    queueList u = queueList v ∧ qsize u = qsize v := by
  unfold queueList qsize
  rw [hb, hh, ht]
  exact ⟨rfl, rfl⟩

/-- With fuel at least the queue size, `midiThruAux` outputs exactly the
queued bytes that pass the forwarding filter, in order, and leaves the
clock and transport state untouched. -/
theorem midiThruAux_spec :
    ∀ (fuel : Nat) (s : HubState), qsize s ≤ fuel →
      (midiThruAux fuel s).2 = (queueList s).filter (fun q => midiForwards s.options q) ∧
      (midiThruAux fuel s).1.options = s.options ∧
      (midiThruAux fuel s).1.mode = s.mode ∧
      (midiThruAux fuel s).1.tickCount = s.tickCount ∧
      (midiThruAux fuel s).1.tick_flag = s.tick_flag ∧
      (midiThruAux fuel s).1.running = s.running ∧
      (midiThruAux fuel s).1.runLock = s.runLock ∧
      (midiThruAux fuel s).1.midiRestart = s.midiRestart := by
  intro fuel
  induction fuel with
  | zero =>
    intro s h
    have h0 : qsize s = 0 := by omega
    have hnil : queueList s = [] := by
      unfold queueList
      rw [h0]
      rfl
    rw [hnil]
    exact ⟨rfl, rfl, rfl, rfl, rfl, rfl, rfl, rfl⟩
  | succ fuel ih =>
    intro s h
    by_cases he : s.rxHead = s.rxTail
    · have h0 : qsize s = 0 := by
        show ((s.rxHead.val + 20) - s.rxTail.val) % 20 = 0
        rw [he]
        omega
      have hnil : queueList s = [] := by
        unfold queueList
        rw [h0]
        rfl
      have hstop : midiThruAux (fuel + 1) s = (s, []) := by
        simp [midiThruAux, he]
      rw [hstop, hnil]
      exact ⟨rfl, rfl, rfl, rfl, rfl, rfl, rfl, rfl⟩
    · obtain ⟨hq1, hone, hlist⟩ := queue_pop_step s he
      by_cases hf : midiForwards s.options (s.rxBuffer s.rxTail) = true
      · obtain ⟨huo, hum, hutc, hutf, hur, hurl, humr, hub, huh, hut⟩ :=
          thruState_fields s (s.rxBuffer s.rxTail)
        have hcong := queueList_congr (thruState s (s.rxBuffer s.rxTail))
          { s with rxTail := s.rxTail + 1 } hub huh hut
        have hfuel : qsize (thruState s (s.rxBuffer s.rxTail)) ≤ fuel := by
          rw [hcong.2, hq1]
          omega
        have hih := ih (thruState s (s.rxBuffer s.rxTail)) hfuel
        have hstep : midiThruAux (fuel + 1) s
            = ((midiThruAux fuel (thruState s (s.rxBuffer s.rxTail))).1,
               s.rxBuffer s.rxTail :: (midiThruAux fuel (thruState s (s.rxBuffer s.rxTail))).2) := by
          simp only [midiThruAux]
          rw [if_neg he, if_pos hf]
        rw [hstep]
        refine ⟨?_, (hih.2.1).trans huo, (hih.2.2.1).trans hum, (hih.2.2.2.1).trans hutc,
          (hih.2.2.2.2.1).trans hutf, (hih.2.2.2.2.2.1).trans hur,
          (hih.2.2.2.2.2.2.1).trans hurl, (hih.2.2.2.2.2.2.2).trans humr⟩
        rw [hlist, List.filter_cons]
        simp only [hf, if_true]
        show s.rxBuffer s.rxTail :: (midiThruAux fuel (thruState s (s.rxBuffer s.rxTail))).2 = _
        rw [hih.1, hcong.1, huo]
      · have hfuel : qsize ({ s with rxTail := s.rxTail + 1 } : HubState) ≤ fuel := by
          rw [hq1]
          omega
        have hih := ih { s with rxTail := s.rxTail + 1 } hfuel
        have hstep : midiThruAux (fuel + 1) s
            = midiThruAux fuel { s with rxTail := s.rxTail + 1 } := by
          simp only [midiThruAux]
          rw [if_neg he, if_neg hf]
        rw [hstep]
        refine ⟨?_, hih.2.1, hih.2.2.1, hih.2.2.2.1, hih.2.2.2.2.1, hih.2.2.2.2.2.1,
          hih.2.2.2.2.2.2.1, hih.2.2.2.2.2.2.2⟩
        rw [hlist, List.filter_cons]
        have hf0 : midiForwards s.options (s.rxBuffer s.rxTail) = false := by
          cases hb : midiForwards s.options (s.rxBuffer s.rxTail)
          · rfl
          · exact absurd hb hf
        simp only [hf0, if_false]
        exact hih.1

/-- C4: `midiThru` forwards exactly the drained bytes that pass the filter,
in order: a byte whose top 5 bits are `11111` (`(q & 0xF8) == 0xF8`) passes
iff `OPTION_PASSREALTIMEMSG` is set, any other byte iff
`OPTION_PASSOTHERMSG` is set; and the filter never touches the tick phase,
the tick flag, or the transport state (`running`, `runLock`,
`midiRestart`), so a received `0xF8` is never reinterpreted as a locally
generated tick. -/
theorem c4_midi_thru (s : HubState) :
    (midiThru s).2 = (queueList s).filter (fun q => midiForwards s.options q) ∧
    (∀ q : Nat, q &&& 0xF8 = 0xF8 →
      (midiForwards s.options q = true ↔ s.options &&& OPTION_PASSREALTIMEMSG ≠ 0)) ∧
    (∀ q : Nat, ¬ q &&& 0xF8 = 0xF8 →
      (midiForwards s.options q = true ↔ s.options &&& OPTION_PASSOTHERMSG ≠ 0)) ∧
    (midiThru s).1.tickCount = s.tickCount ∧
    (midiThru s).1.tick_flag = s.tick_flag ∧
    (midiThru s).1.running = s.running ∧
    (midiThru s).1.runLock = s.runLock ∧
    (midiThru s).1.midiRestart = s.midiRestart ∧
    (midiThru s).1.mode = s.mode := by
  have hsz : qsize s ≤ SZ_RXBUFFER := by
    have hlt : qsize s < 20 := by
      show ((s.rxHead.val + 20) - s.rxTail.val) % 20 < 20
      omega
    unfold SZ_RXBUFFER
    omega
  have h := midiThruAux_spec SZ_RXBUFFER s hsz
  refine ⟨h.1, ?_, ?_, h.2.2.2.1, h.2.2.2.2.1, h.2.2.2.2.2.1, h.2.2.2.2.2.2.1,
    h.2.2.2.2.2.2.2, h.2.2.1⟩
  · intro q hq
    simp [midiForwards, hq]
  · intro q hq
    simp [midiForwards, hq]

/-- Witness for C4: with the default options (pass-other only) and the two
bytes `0xF8, 0x90` queued, only `0x90` is forwarded, and the tick phase is
untouched. -/
theorem c4_midi_thru_witness :
    (midiThru { initState with rxBuffer := fun i => if i.val = 0 then 0xF8 else 0x90, rxHead := 2 }).2 = [0x90] ∧
    (midiThru { initState with rxBuffer := fun i => if i.val = 0 then 0xF8 else 0x90, rxHead := 2 }).1.tickCount = 0 ∧
    (midiForwards OPTIONS_DEFAULT 0xF8 = true ↔ OPTIONS_DEFAULT &&& OPTION_PASSREALTIMEMSG ≠ 0) := by
  refine ⟨?_, ?_, ?_⟩
  · have h := (c4_midi_thru { initState with rxBuffer := fun i => if i.val = 0 then 0xF8 else 0x90, rxHead := 2 }).1
    rw [h]
    decide
  · exact (c4_midi_thru { initState with rxBuffer := fun i => if i.val = 0 then 0xF8 else 0x90, rxHead := 2 }).2.2.2.1
  · exact (c4_midi_thru { initState with rxBuffer := fun i => if i.val = 0 then 0xF8 else 0x90, rxHead := 2 }).2.1 0xF8 (by decide)

/-- The LED/tap part of the tick branch never touches the tick counter. -/
theorem clockLeds_tickCount (s : HubState) : (clockLeds s).tickCount = s.tickCount := by
  simp only [clockLeds]
  split_ifs <;> rfl

/-- The LED/tap part of the tick branch never touches the tick flag. -/
theorem clockLeds_tick_flag (s : HubState) : (clockLeds s).tick_flag = s.tick_flag := by
  simp only [clockLeds]
  split_ifs <;> rfl

/-- The LED/tap part of the tick branch never touches the mode. -/
theorem clockLeds_mode (s : HubState) : (clockLeds s).mode = s.mode := by
  simp only [clockLeds]
  split_ifs <;> rfl

/-- The LED/tap part of the tick branch never touches `running`. -/
theorem clockLeds_running (s : HubState) : (clockLeds s).running = s.running := by
  simp only [clockLeds]
  split_ifs <;> rfl

/-- The LED/tap part of the tick branch never touches `midiRestart`. -/
theorem clockLeds_midiRestart (s : HubState) : (clockLeds s).midiRestart = s.midiRestart := by
  simp only [clockLeds]
  split_ifs <;> rfl

/-- In Step/Tap mode with no pending tick signal, the mode section of a
main-loop iteration is a no-op. -/
theorem modeSection_stepTap_idle (s : HubState)
    (hm : s.mode = MODE_STEP ∨ s.mode = MODE_TAP) (hf : s.tick_flag = false) :
    modeSection s = (s, []) := by
  rcases hm with hm | hm <;> simp [modeSection, hm, clockTick, hf]

/-- In Step/Tap mode with the tick signal raised, the mode section consumes
the signal exactly once: the phase advances by one modulo 24, the deferred
START is emitted exactly at the wrap to phase 0 and before the tick byte,
and `midiRestart` is cleared exactly at the wrap. -/
theorem modeSection_stepTap_consume (s : HubState)
    (hm : s.mode = MODE_STEP ∨ s.mode = MODE_TAP) (hf : s.tick_flag = true)
    (htc : s.tickCount < 24) :
    (modeSection s).1.tickCount = (s.tickCount + 1) % 24 ∧
    (modeSection s).1.tick_flag = false ∧
    (modeSection s).1.mode = s.mode ∧
    (modeSection s).1.running = s.running ∧
    (modeSection s).1.midiRestart = (s.midiRestart && !decide (s.tickCount = 23)) ∧
    (modeSection s).2 = (if s.tickCount = 23 ∧ s.midiRestart then [MIDI_SYNCH_START] else [])
      ++ (if s.running then [MIDI_SYNCH_TICK] else []) := by
  have hms : modeSection s = clockTick s := by
    rcases hm with hm | hm <;> simp [modeSection, hm]
  rw [hms]
  by_cases h23 : s.tickCount = 23
  · by_cases hmr : s.midiRestart = true
    · simp [clockTick, hf, h23, hmr, clockLeds_tickCount, clockLeds_tick_flag, clockLeds_mode,
        clockLeds_running, clockLeds_midiRestart]
    · have hmr' : s.midiRestart = false := by
        cases hb : s.midiRestart
        · rfl
        · exact absurd hb hmr
      simp [clockTick, hf, h23, hmr', clockLeds_tickCount, clockLeds_tick_flag, clockLeds_mode,
        clockLeds_running, clockLeds_midiRestart]
  · have hlt : ¬ s.tickCount + 1 > 23 := by omega
    have hmod : (s.tickCount + 1) % 24 = s.tickCount + 1 := Nat.mod_eq_of_lt (by omega)
    simp [clockTick, hf, hlt, h23, hmod, clockLeds_tickCount, clockLeds_tick_flag,
      clockLeds_mode, clockLeds_running, clockLeds_midiRestart]

/-- Main-loop iterations in Step/Tap with no pending tick change nothing. -/
theorem pollN_idle (n : Nat) (s : HubState)
    (hm : s.mode = MODE_STEP ∨ s.mode = MODE_TAP) (hf : s.tick_flag = false) :
    pollN n s = s := by
  induction n with
  | zero => rfl
  | succ n ih =>
    show pollN n (modeSection s).1 = s
    rw [modeSection_stepTap_idle s hm hf]
    exact ih

/-- Interleaving raised ticks with arbitrarily many polling iterations
(at least one per tick) advances the phase by exactly one per tick. -/
theorem runTickGroups_phase :
    ∀ (groups : List Nat) (s : HubState),
      (s.mode = MODE_STEP ∨ s.mode = MODE_TAP) → s.tick_flag = false → s.tickCount < 24 →
      (∀ n ∈ groups, 0 < n) →
      (runTickGroups groups s).tickCount = (s.tickCount + groups.length) % 24 ∧
      (runTickGroups groups s).tick_flag = false ∧
      (runTickGroups groups s).mode = s.mode := by
  intro groups
  induction groups with
  | nil =>
    intro s hm hf htc _
    refine ⟨?_, hf, rfl⟩
    show s.tickCount = (s.tickCount + 0) % 24
    rw [Nat.add_zero, Nat.mod_eq_of_lt htc]
  | cons n rest ih =>
    intro s hm hf htc hpos
    have hn := hpos n (List.mem_cons_self n rest)
    obtain ⟨m, rfl⟩ : ∃ m, n = m + 1 := ⟨n - 1, by omega⟩
    have hr_mode : (raiseTick s).mode = s.mode := rfl
    have hr_flag : (raiseTick s).tick_flag = true := rfl
    have hr_tc : (raiseTick s).tickCount = s.tickCount := rfl
    have hcons := modeSection_stepTap_consume (raiseTick s) (by rw [hr_mode]; exact hm)
      hr_flag (by rw [hr_tc]; exact htc)
    have hs1_tc : (modeSection (raiseTick s)).1.tickCount = (s.tickCount + 1) % 24 := hcons.1
    have hs1_flag : (modeSection (raiseTick s)).1.tick_flag = false := hcons.2.1
    have hs1_mode : (modeSection (raiseTick s)).1.mode = s.mode := hcons.2.2.1
    have hp1 : pollN (m + 1) (raiseTick s) = (modeSection (raiseTick s)).1 := by
      show pollN m (modeSection (raiseTick s)).1 = _
      exact pollN_idle m _ (by rw [hs1_mode]; exact hm) hs1_flag
    have hrec := ih (modeSection (raiseTick s)).1 (by rw [hs1_mode]; exact hm) hs1_flag
      (by rw [hs1_tc]; exact Nat.mod_lt _ (by omega))
      (fun k hk => hpos k (List.mem_cons_of_mem _ hk))
    have hstep : runTickGroups ((m + 1) :: rest) s
        = runTickGroups rest (pollN (m + 1) (raiseTick s)) := rfl
    rw [hstep, hp1]
    refine ⟨?_, hrec.2.1, by rw [hrec.2.2, hs1_mode]⟩
    rw [hrec.1, hs1_tc]
    show ((s.tickCount + 1) % 24 + rest.length) % 24 = _
    rw [Nat.mod_add_mod]
    congr 1
    simp [List.length_cons]
    omega

/-- C1: in Step/Tap mode, each raised tick signal is consumed exactly once
regardless of how many main-loop iterations occur between ticks, so the
phase advances by exactly one modulo 24 per tempo tick (cycling
0..23..0 every 24 ticks); and on the consuming iteration a pending restart
emits START exactly at the wrap to phase 0, before the tick byte, clearing
the pending flag exactly then. -/
theorem c1_tick_phase :
    (∀ (s : HubState) (groups : List Nat),
      (s.mode = MODE_STEP ∨ s.mode = MODE_TAP) → s.tick_flag = false → s.tickCount < 24 →
      (∀ n ∈ groups, 0 < n) →
      (runTickGroups groups s).tickCount = (s.tickCount + groups.length) % 24) ∧
    (∀ s : HubState,
      (s.mode = MODE_STEP ∨ s.mode = MODE_TAP) → s.tick_flag = true → s.tickCount < 24 →
      (modeSection s).1.tickCount = (s.tickCount + 1) % 24 ∧
      (modeSection s).1.tick_flag = false ∧
      (modeSection s).1.midiRestart = (s.midiRestart && !decide (s.tickCount = 23)) ∧
      (modeSection s).2 = (if s.tickCount = 23 ∧ s.midiRestart then [MIDI_SYNCH_START] else [])
        ++ (if s.running then [MIDI_SYNCH_TICK] else [])) := by
  constructor
  · intro s groups hm hf htc hpos
    exact (runTickGroups_phase groups s hm hf htc hpos).1
  · intro s hm hf htc
    obtain ⟨h1, h2, _, _, h5, h6⟩ := modeSection_stepTap_consume s hm hf htc
    exact ⟨h1, h2, h5, h6⟩

/-- Witness for C1: three ticks with 1, 2 and 3 polls in between advance
the phase from 0 to 3; and at phase 23 with a pending restart and the
clock running, the consuming iteration emits START then TICK. -/
theorem c1_tick_phase_witness :
    (runTickGroups [1, 2, 3] initState).tickCount = 3 ∧
    (modeSection { initState with tick_flag := true, tickCount := 23, midiRestart := true, running := true }).2
      = [MIDI_SYNCH_START, MIDI_SYNCH_TICK] := by
  constructor
  · have h := c1_tick_phase.1 initState [1, 2, 3] (Or.inl rfl) rfl (by decide) (by decide)
    rw [h]
    decide
  · have h := (c1_tick_phase.2
      { initState with tick_flag := true, tickCount := 23, midiRestart := true, running := true }
      (Or.inl rfl) rfl (by decide)).2.2.2
    rw [h]
    decide
